import Mathlib

/-!
Shallow embedding of `bizzyvinci/scrap-utils` (Python), covering the parts of
the library that the specification's claims are about:

* `scrap_utils/requests.py` — `requests_get` and `requests_post`, the retrying
  HTTP helpers (namespace `Requests` below);
* `scrap_utils/scrap_utils.py` — the legacy `requests_post` variant
  (namespace `Legacy` below);
* `scrap_utils/file.py` — the CSV helpers `to_csv` and `read_csv`
  (namespace `File` below).

The HTTP transport is modelled as a function `req : Nat → Outcome` giving the
outcome of each underlying attempt: `req k` is the outcome of the attempt made
when the (incremented) trial counter equals `k`.  A call seeded with
`trials = t` therefore consumes `req (t+1), req (t+2), …`.  Each run returns a
trace (`RunResult`): the final result, the number of HTTP attempts made, the
number of `time.sleep` invocations, and the diagnostic log records, so the
observable behaviour the spec talks about (attempt counts, sleeps, logs,
raised errors) is captured by a pure function.
-/

/-- A `requests.Response`, reduced to the fields the library inspects: the
status code, plus an opaque body so that distinct responses are
distinguishable. -/
structure Response where
  status_code : Nat
  body : String
deriving Repr, DecidableEq

/-- The outcome of one underlying HTTP attempt: either the transport returns a
response, or it raises a transport-level exception (carried as a message). -/
inductive Outcome where
  | resp : Response → Outcome
  | exc : String → Outcome
deriving Repr, DecidableEq

/-- A diagnostic record: `logging.warning` or `logging.error` with its
message. -/
inductive LogRec where
  | warning : String → LogRec
  | error : String → LogRec
deriving Repr, DecidableEq

/-- A Python exception escaping a call of the retry helpers.  The source's
blanket `except Exception` around each attempt means the helpers themselves
only ever raise `MaxTryReached`; the `uncaught` constructor exists so that the
absence of any other escaping exception is a provable statement rather than a
typing artefact. -/
inductive PyErr where
  | maxTryReached : String → PyErr
  | uncaught : String → PyErr
deriving Repr, DecidableEq

deriving instance DecidableEq for Except

/-- The observable trace of one call of a retry helper. -/
structure RunResult where
  result : Except PyErr Response
  attempts : Nat
  sleeps : Nat
  logs : List LogRec
deriving Repr, DecidableEq

/-- An attempt outcome is a failure when it is a transport exception or a
response whose status code is not 200 (`requests.py` lines 45-58). -/
def attemptFails : Outcome → Bool
  | Outcome.resp r => r.status_code != 200
  | Outcome.exc _ => true

namespace Requests

/-- The `logging.warning` message for a bad status code in `requests_get`
(`requests.py` lines 49-53). -/
def getBadStatusMsg (status trials max_try sleep_time : Nat) (url : String) : String :=
  s!"Requests GET Bad Status Code: {status}; {trials}/{max_try} trials; Sleep Time: {sleep_time}; Url: {url}"

/-- The `logging.error` message for a transport exception in `requests_get`
(`requests.py` lines 55-58). -/
def getExcMsg (e : String) (trials max_try sleep_time : Nat) (url : String) : String :=
  s!"Requests GET Error: {e}; {trials}/{max_try} trials; Sleep Time: {sleep_time}; Url: {url}"

/-- The `MaxTryReached` message raised by `requests_get`
(`requests.py` lines 67-69). -/
def getRaiseMsg (max_try : Nat) : String :=
  "Max Try of " ++ toString max_try ++ " has been reached for requests GET."

/-- Model of `requests.py` `requests_get(url, sleep_time, max_try, trials, **kwargs)`.
The body mirrors the source line by line: increment `trials`; make the
attempt (`req (trials + 1)`); on a 200 response return it; otherwise log the
failure; then, if `trials < max_try`, sleep and recurse, else raise
`MaxTryReached`.  The trace fields accumulate the attempts, sleeps and logs of
the whole call. -/
def requests_get (req : Nat → Outcome) (url : String) (sleep_time : Nat)
    (max_try : Nat) (trials : Nat) : RunResult :=
  match req (trials + 1) with
  | Outcome.resp response =>
    if response.status_code = 200 then
      { result := Except.ok response, attempts := 1, sleeps := 0, logs := [] }
    else
      let log := LogRec.warning
        (getBadStatusMsg response.status_code (trials + 1) max_try sleep_time url)
      if h : trials + 1 < max_try then
        let rest := requests_get req url sleep_time max_try (trials + 1)
        { result := rest.result, attempts := rest.attempts + 1,
          sleeps := rest.sleeps + 1, logs := log :: rest.logs }
      else
        { result := Except.error (PyErr.maxTryReached (getRaiseMsg max_try)),
          attempts := 1, sleeps := 0, logs := [log] }
  | Outcome.exc e =>
    let log := LogRec.error (getExcMsg e (trials + 1) max_try sleep_time url)
    if h : trials + 1 < max_try then
      let rest := requests_get req url sleep_time max_try (trials + 1)
      { result := rest.result, attempts := rest.attempts + 1,
        sleeps := rest.sleeps + 1, logs := log :: rest.logs }
    else
      { result := Except.error (PyErr.maxTryReached (getRaiseMsg max_try)),
        attempts := 1, sleeps := 0, logs := [log] }
termination_by max_try - trials
decreasing_by all_goals omega

/-- The `logging.warning` message for a bad status code in `requests_post`
(`requests.py` lines 106-110). -/
def postBadStatusMsg (status trials max_try sleep_time : Nat) (url : String) : String :=
  s!"Requests POST Bad Status Code: {status}; {trials}/{max_try} trials; Sleep Time: {sleep_time}; Url: {url}"

/-- The `logging.error` message for a transport exception in `requests_post`
(`requests.py` lines 112-115). -/
def postExcMsg (e : String) (trials max_try sleep_time : Nat) (url : String) : String :=
  s!"Requests POST Error: {e}; {trials}/{max_try} trials; Sleep Time: {sleep_time}; Url: {url}"

/-- The `MaxTryReached` message raised by `requests_post`
(`requests.py` lines 126-128). -/
def postRaiseMsg (max_try : Nat) : String :=
  "Max Try of " ++ toString max_try ++ " has been reached for requests POST."

/-- Model of `requests.py` `requests_post(url, sleep_time, max_try, trials, **kwargs)`:
identical to `requests_get` except for the underlying HTTP verb and the
message texts. -/
def requests_post (req : Nat → Outcome) (url : String) (sleep_time : Nat)
    (max_try : Nat) (trials : Nat) : RunResult :=
  match req (trials + 1) with
  | Outcome.resp response =>
    if response.status_code = 200 then
      { result := Except.ok response, attempts := 1, sleeps := 0, logs := [] }
    else
      let log := LogRec.warning
        (postBadStatusMsg response.status_code (trials + 1) max_try sleep_time url)
      if h : trials + 1 < max_try then
        let rest := requests_post req url sleep_time max_try (trials + 1)
        { result := rest.result, attempts := rest.attempts + 1,
          sleeps := rest.sleeps + 1, logs := log :: rest.logs }
      else
        { result := Except.error (PyErr.maxTryReached (postRaiseMsg max_try)),
          attempts := 1, sleeps := 0, logs := [log] }
  | Outcome.exc e =>
    let log := LogRec.error (postExcMsg e (trials + 1) max_try sleep_time url)
    if h : trials + 1 < max_try then
      let rest := requests_post req url sleep_time max_try (trials + 1)
      { result := rest.result, attempts := rest.attempts + 1,
        sleeps := rest.sleeps + 1, logs := log :: rest.logs }
    else
      { result := Except.error (PyErr.maxTryReached (postRaiseMsg max_try)),
        attempts := 1, sleeps := 0, logs := [log] }
termination_by max_try - trials
decreasing_by all_goals omega

end Requests

namespace Legacy

/-- The trace of one call of the legacy `scrap_utils.py` `requests_post`,
whose diagnostics go through `print` rather than `logging`. -/
structure LegacyRunResult where
  result : Except PyErr Response
  attempts : Nat
  sleeps : Nat
  prints : List String
deriving Repr, DecidableEq

/-- The `print` message for a bad status code in the legacy `requests_post`
(`scrap_utils.py` lines 271-274). -/
def legacyBadStatusMsg (status trials max_try sleep_time : Nat) (url : String) : String :=
  s!"\nRequests Post Bad Status Code: {status}\nTrial: {trials}; Max Try: {max_try}; Sleep Time: {sleep_time}\nUrl: {url}\n"

/-- The `print` message for a transport exception in the legacy `requests_post`
(`scrap_utils.py` lines 276-278). -/
def legacyExcMsg (e : String) (trials max_try sleep_time : Nat) (url : String) : String :=
  s!"\nRequests Post Error: {e}\nTrial: {trials}; Max Try: {max_try}; Sleep Time: {sleep_time}\nUrl: {url}\n"

/-- The `MaxTryReached` message raised by the legacy `requests_post`
(`scrap_utils.py` line 287); unlike the `requests.py` variants it carries the
URL. -/
def legacyRaiseMsg (max_try : Nat) (url : String) : String :=
  "Max Trial of " ++ toString max_try ++ " has been reached for requests post. Url: " ++ url

/-- Model of `scrap_utils.py` `requests_post(url, trials, sleep_time, max_try, **kwargs)`
(note the source's parameter order, kept here).  The source defaults
`max_try` to `math.inf`, under which the function can never raise; the model
takes the finite `max_try` actually passed, which is the only case the claims
exercise. -/
def requests_post (req : Nat → Outcome) (url : String) (trials : Nat)
    (sleep_time : Nat) (max_try : Nat) : LegacyRunResult :=
  match req (trials + 1) with
  | Outcome.resp response =>
    if response.status_code = 200 then
      { result := Except.ok response, attempts := 1, sleeps := 0, prints := [] }
    else
      let pr := legacyBadStatusMsg response.status_code (trials + 1) max_try sleep_time url
      if h : trials + 1 < max_try then
        let rest := requests_post req url (trials + 1) sleep_time max_try
        { result := rest.result, attempts := rest.attempts + 1,
          sleeps := rest.sleeps + 1, prints := pr :: rest.prints }
      else
        { result := Except.error (PyErr.maxTryReached (legacyRaiseMsg max_try url)),
          attempts := 1, sleeps := 0, prints := [pr] }
  | Outcome.exc e =>
    let pr := legacyExcMsg e (trials + 1) max_try sleep_time url
    if h : trials + 1 < max_try then
      let rest := requests_post req url (trials + 1) sleep_time max_try
      { result := rest.result, attempts := rest.attempts + 1,
        sleeps := rest.sleeps + 1, prints := pr :: rest.prints }
    else
      { result := Except.error (PyErr.maxTryReached (legacyRaiseMsg max_try url)),
        attempts := 1, sleeps := 0, prints := [pr] }
termination_by max_try - trials
decreasing_by all_goals omega

end Legacy

namespace File

/-- The Python `open` mode actually used by the CSV helpers: `'a'` (append,
the `to_csv` default) or `'w'` (truncate-then-write).  Other mode strings are
never exercised by the claims. -/
inductive Mode where
  | a : Mode
  | w : Mode
deriving Repr, DecidableEq

/-- The rows a file holds right after `open(filepath, mode=mode, ...)`:
`'w'` truncates to empty; `'a'` keeps the existing content (`none` meaning
the file did not exist, in which case `open` creates it empty). -/
def openFileBase (mode : Mode) (existing : Option (List (List String))) :
    List (List String) :=
  match mode with
  | Mode.w => []
  | Mode.a => existing.getD []

/-- The result of a `to_csv` call: the rows the file holds afterwards, and
the `logging.warning` messages emitted. -/
structure ToCsvResult where
  file : List (List String)
  warnings : List String
deriving Repr, DecidableEq

/-- The warning logged by `to_csv` when `dictionary=True` and `fieldnames` is
empty (`file.py` lines 193-196). -/
def fieldnamesWarning : String :=
  "fieldnames is not specified/empty. Therefore, nothing might be saved in csv file."

/-- Model of `file.py` `to_csv` with `dictionary=False` (lines 198-202): open the file
in `mode`, then `csv.writer(...).writerows(dataset)` when `header` is true and
`writerows(dataset[1:])` otherwise.  `scrap_utils.py` lines 195-200 are the
identical branch.  The CSV encoding itself (dialect, quoting) is the standard
library's and is modelled as the identity on rows. -/
def to_csv (dataset : List (List String))
    (existing : Option (List (List String))) (header : Bool) (mode : Mode) :
    ToCsvResult :=
  let base := openFileBase mode existing
  if header then
    { file := base ++ dataset, warnings := [] }
  else
    { file := base ++ dataset.drop 1, warnings := [] }

/-- Model of `file.py` `to_csv` with `dictionary=True` (lines 186-197): open the file
in `mode`; if `fieldnames` is truthy (non-empty), write the header row when
`header` is true and then the dataset rows projected onto `fieldnames` by
`csv.DictWriter` (missing keys filled with `DictWriter`'s default `restval`
of an empty string; the claims never exercise rows with extra keys, whose
`extrasaction='raise'` check is therefore elided); if `fieldnames` is empty,
write nothing and log a warning. -/
def to_csv_dictionary (dataset : List (List (String × String)))
    (existing : Option (List (List String))) (fieldnames : List String)
    (header : Bool) (mode : Mode) : ToCsvResult :=
  let base := openFileBase mode existing
  if fieldnames = [] then
    { file := base, warnings := [fieldnamesWarning] }
  else
    let headerRows := if header then [fieldnames] else []
    let rows := dataset.map (fun d => fieldnames.map (fun f => ((d.lookup f).getD "")))
    { file := base ++ headerRows ++ rows, warnings := [] }

/-- Model of `file.py` `read_csv` with `dictionary=False` (lines 272-277):
`list(reader)` when `header` is true, `list(reader)[1:]` otherwise, where
`fileRows` are the rows the file holds. -/
def read_csv (fileRows : List (List String)) (header : Bool) :
    List (List String) :=
  if header then fileRows else fileRows.drop 1

end File

theorem get_allFail (req : Nat → Outcome) (url : String) (s N : Nat)
    (hfail : ∀ k, attemptFails (req k) = true) :
    ∀ t, t < N →
      (Requests.requests_get req url s N t).result
          = Except.error (PyErr.maxTryReached (Requests.getRaiseMsg N))
        ∧ (Requests.requests_get req url s N t).attempts = N - t := by
  intro t
  induction t using Requests.requests_get.induct req url s N with
  | case1 x a h1 h2 =>
    have hf := hfail (x + 1)
    rw [h1] at hf
    simp [attemptFails, h2] at hf
  | case2 x a h1 h2 h3 ih =>
    intro hx
    rw [Requests.requests_get, h1]
    simp only [if_neg h2, dif_pos h3]
    have := ih (by omega)
    refine ⟨this.1, ?_⟩
    simp only [this.2]
    omega
  | case3 x a h1 h2 h3 =>
    intro hx
    rw [Requests.requests_get, h1]
    simp only [if_neg h2, dif_neg h3]
    exact ⟨trivial, by omega⟩
  | case4 x e h1 h3 ih =>
    intro hx
    rw [Requests.requests_get, h1]
    simp only [dif_pos h3]
    have := ih (by omega)
    refine ⟨this.1, ?_⟩
    simp only [this.2]
    omega
  | case5 x e h1 h3 =>
    intro hx
    rw [Requests.requests_get, h1]
    simp only [dif_neg h3]
    exact ⟨trivial, by omega⟩

theorem get_sleeps (req : Nat → Outcome) (url : String) (s N : Nat) :
    ∀ t, (Requests.requests_get req url s N t).sleeps + 1
      = (Requests.requests_get req url s N t).attempts := by
  intro t
  induction t using Requests.requests_get.induct req url s N with
  | case1 x a h1 h2 =>
    rw [Requests.requests_get, h1]
    simp [h2]
  | case2 x a h1 h2 h3 ih =>
    rw [Requests.requests_get, h1]
    simp only [if_neg h2, dif_pos h3]
    omega
  | case3 x a h1 h2 h3 =>
    rw [Requests.requests_get, h1]
    simp only [if_neg h2, dif_neg h3]
  | case4 x e h1 h3 ih =>
    rw [Requests.requests_get, h1]
    simp only [dif_pos h3]
    omega
  | case5 x e h1 h3 =>
    rw [Requests.requests_get, h1]
    simp only [dif_neg h3]

theorem get_ok_status (req : Nat → Outcome) (url : String) (s N : Nat) :
    ∀ t r, (Requests.requests_get req url s N t).result = Except.ok r →
      r.status_code = 200 := by
  intro t
  induction t using Requests.requests_get.induct req url s N with
  | case1 x a h1 h2 =>
    intro r hr
    rw [Requests.requests_get, h1] at hr
    simp [h2] at hr
    rw [← hr]
    exact h2
  | case2 x a h1 h2 h3 ih =>
    intro r hr
    rw [Requests.requests_get, h1] at hr
    simp only [if_neg h2, dif_pos h3] at hr
    exact ih r hr
  | case3 x a h1 h2 h3 =>
    intro r hr
    rw [Requests.requests_get, h1] at hr
    simp [h2, h3] at hr
  | case4 x e h1 h3 ih =>
    intro r hr
    rw [Requests.requests_get, h1] at hr
    simp only [dif_pos h3] at hr
    exact ih r hr
  | case5 x e h1 h3 =>
    intro r hr
    rw [Requests.requests_get, h1] at hr
    simp [h3] at hr

theorem get_error_msg (req : Nat → Outcome) (url : String) (s N : Nat) :
    ∀ t e, (Requests.requests_get req url s N t).result = Except.error e →
      e = PyErr.maxTryReached (Requests.getRaiseMsg N) := by
  intro t
  induction t using Requests.requests_get.induct req url s N with
  | case1 x a h1 h2 =>
    intro e he
    rw [Requests.requests_get, h1] at he
    simp [h2] at he
  | case2 x a h1 h2 h3 ih =>
    intro e he
    rw [Requests.requests_get, h1] at he
    simp only [if_neg h2, dif_pos h3] at he
    exact ih e he
  | case3 x a h1 h2 h3 =>
    intro e he
    rw [Requests.requests_get, h1] at he
    simp [h2, h3] at he
    exact he.symm
  | case4 x e0 h1 h3 ih =>
    intro e he
    rw [Requests.requests_get, h1] at he
    simp only [dif_pos h3] at he
    exact ih e he
  | case5 x e0 h1 h3 =>
    intro e he
    rw [Requests.requests_get, h1] at he
    simp [h3] at he
    exact he.symm

theorem get_firstSuccess (req : Nat → Outcome) (url : String) (s N : Nat) :
    ∀ t k r, t < k → k ≤ N →
      (∀ j, t < j → j < k → attemptFails (req j) = true) →
      req k = Outcome.resp r → r.status_code = 200 →
      (Requests.requests_get req url s N t).result = Except.ok r
      ∧ (Requests.requests_get req url s N t).attempts = k - t := by
  intro t
  induction t using Requests.requests_get.induct req url s N with
  | case1 x a h1 h2 =>
    intro k r hk hkN hfails hreqk h200
    have hk1 : k = x + 1 := by
      by_contra hne
      have hlt : x + 1 < k := by omega
      have hf := hfails (x + 1) (by omega) hlt
      rw [h1] at hf
      simp [attemptFails, h2] at hf
    subst hk1
    rw [h1] at hreqk
    injection hreqk with har
    subst har
    rw [Requests.requests_get, h1]
    simp [h2]
  | case2 x a h1 h2 h3 ih =>
    intro k r hk hkN hfails hreqk h200
    have hxk : x + 1 < k := by
      by_contra hne
      have hk1 : k = x + 1 := by omega
      subst hk1
      rw [h1] at hreqk
      injection hreqk with har
      subst har
      exact h2 h200
    have := ih k r hxk hkN (fun j hj1 hj2 => hfails j (by omega) hj2) hreqk h200
    rw [Requests.requests_get, h1]
    simp only [if_neg h2, dif_pos h3]
    refine ⟨this.1, ?_⟩
    simp only [this.2]
    omega
  | case3 x a h1 h2 h3 =>
    intro k r hk hkN hfails hreqk h200
    have hk1 : k = x + 1 := by omega
    subst hk1
    rw [h1] at hreqk
    injection hreqk with har
    subst har
    exact absurd h200 h2
  | case4 x e h1 h3 ih =>
    intro k r hk hkN hfails hreqk h200
    have hxk : x + 1 < k := by
      by_contra hne
      have hk1 : k = x + 1 := by omega
      subst hk1
      rw [h1] at hreqk
      exact Outcome.noConfusion hreqk
    have := ih k r hxk hkN (fun j hj1 hj2 => hfails j (by omega) hj2) hreqk h200
    rw [Requests.requests_get, h1]
    simp only [dif_pos h3]
    refine ⟨this.1, ?_⟩
    simp only [this.2]
    omega
  | case5 x e h1 h3 =>
    intro k r hk hkN hfails hreqk h200
    have hk1 : k = x + 1 := by omega
    subst hk1
    rw [h1] at hreqk
    exact Outcome.noConfusion hreqk

theorem get_step_succ (req : Nat → Outcome) (url : String) (s N t : Nat)
    (r : Response) (h1 : req (t + 1) = Outcome.resp r)
    (h2 : r.status_code = 200) :
    Requests.requests_get req url s N t
      = { result := Except.ok r, attempts := 1, sleeps := 0, logs := [] } := by
  rw [Requests.requests_get.eq_def req url s N t, h1]
  simp [h2]

theorem get_step_fail_retry (req : Nat → Outcome) (url : String) (s N t : Nat)
    (hf : attemptFails (req (t + 1)) = true) (hlt : t + 1 < N) :
    (Requests.requests_get req url s N t).result
        = (Requests.requests_get req url s N (t + 1)).result
    ∧ (Requests.requests_get req url s N t).attempts
        = (Requests.requests_get req url s N (t + 1)).attempts + 1
    ∧ (Requests.requests_get req url s N t).sleeps
        = (Requests.requests_get req url s N (t + 1)).sleeps + 1 := by
  cases hq : req (t + 1) with
  | resp b =>
    have hb : ¬ b.status_code = 200 := by
      rw [hq] at hf
      simpa [attemptFails] using hf
    rw [Requests.requests_get.eq_def req url s N t, hq]
    simp [if_neg hb, dif_pos hlt]
  | exc e =>
    rw [Requests.requests_get.eq_def req url s N t, hq]
    simp [dif_pos hlt]

theorem get_step_fail_raise (req : Nat → Outcome) (url : String) (s N t : Nat)
    (hf : attemptFails (req (t + 1)) = true) (hge : ¬ t + 1 < N) :
    (Requests.requests_get req url s N t).result
        = Except.error (PyErr.maxTryReached (Requests.getRaiseMsg N))
    ∧ (Requests.requests_get req url s N t).attempts = 1
    ∧ (Requests.requests_get req url s N t).sleeps = 0 := by
  cases hq : req (t + 1) with
  | resp b =>
    have hb : ¬ b.status_code = 200 := by
      rw [hq] at hf
      simpa [attemptFails] using hf
    rw [Requests.requests_get.eq_def req url s N t, hq]
    simp [if_neg hb, dif_neg hge]
  | exc e =>
    rw [Requests.requests_get.eq_def req url s N t, hq]
    simp [dif_neg hge]

theorem get_uniform (req1 req2 : Nat → Outcome) (url : String) (s N : Nat)
    (h : ∀ k, (attemptFails (req1 k) = true ∧ attemptFails (req2 k) = true)
        ∨ req1 k = req2 k) :
    ∀ t,
      (Requests.requests_get req1 url s N t).result
          = (Requests.requests_get req2 url s N t).result
      ∧ (Requests.requests_get req1 url s N t).attempts
          = (Requests.requests_get req2 url s N t).attempts
      ∧ (Requests.requests_get req1 url s N t).sleeps
          = (Requests.requests_get req2 url s N t).sleeps := by
  intro t
  induction t using Requests.requests_get.induct req1 url s N with
  | case1 x a h1 h2 =>
    have heq : req2 (x + 1) = Outcome.resp a := by
      rcases h (x + 1) with ⟨hf1, _⟩ | heq
      · rw [h1] at hf1
        simp [attemptFails, h2] at hf1
      · rw [← heq]
        exact h1
    rw [get_step_succ req1 url s N x a h1 h2, get_step_succ req2 url s N x a heq h2]
    exact ⟨rfl, rfl, rfl⟩
  | case2 x a h1 h2 h3 ih =>
    have hf1 : attemptFails (req1 (x + 1)) = true := by
      rw [h1]
      simp [attemptFails, h2]
    have hf2 : attemptFails (req2 (x + 1)) = true := by
      rcases h (x + 1) with ⟨_, hf2⟩ | heq
      · exact hf2
      · rw [← heq]
        exact hf1
    have s1 := get_step_fail_retry req1 url s N x hf1 h3
    have s2 := get_step_fail_retry req2 url s N x hf2 h3
    exact ⟨by rw [s1.1, s2.1, ih.1], by rw [s1.2.1, s2.2.1, ih.2.1],
      by rw [s1.2.2, s2.2.2, ih.2.2]⟩
  | case3 x a h1 h2 h3 =>
    have hf1 : attemptFails (req1 (x + 1)) = true := by
      rw [h1]
      simp [attemptFails, h2]
    have hf2 : attemptFails (req2 (x + 1)) = true := by
      rcases h (x + 1) with ⟨_, hf2⟩ | heq
      · exact hf2
      · rw [← heq]
        exact hf1
    have s1 := get_step_fail_raise req1 url s N x hf1 h3
    have s2 := get_step_fail_raise req2 url s N x hf2 h3
    exact ⟨by rw [s1.1, s2.1], by rw [s1.2.1, s2.2.1], by rw [s1.2.2, s2.2.2]⟩
  | case4 x e h1 h3 ih =>
    have hf1 : attemptFails (req1 (x + 1)) = true := by
      rw [h1]
      simp [attemptFails]
    have hf2 : attemptFails (req2 (x + 1)) = true := by
      rcases h (x + 1) with ⟨_, hf2⟩ | heq
      · exact hf2
      · rw [← heq]
        exact hf1
    have s1 := get_step_fail_retry req1 url s N x hf1 h3
    have s2 := get_step_fail_retry req2 url s N x hf2 h3
    exact ⟨by rw [s1.1, s2.1, ih.1], by rw [s1.2.1, s2.2.1, ih.2.1],
      by rw [s1.2.2, s2.2.2, ih.2.2]⟩
  | case5 x e h1 h3 =>
    have hf1 : attemptFails (req1 (x + 1)) = true := by
      rw [h1]
      simp [attemptFails]
    have hf2 : attemptFails (req2 (x + 1)) = true := by
      rcases h (x + 1) with ⟨_, hf2⟩ | heq
      · exact hf2
      · rw [← heq]
        exact hf1
    have s1 := get_step_fail_raise req1 url s N x hf1 h3
    have s2 := get_step_fail_raise req2 url s N x hf2 h3
    exact ⟨by rw [s1.1, s2.1], by rw [s1.2.1, s2.2.1], by rw [s1.2.2, s2.2.2]⟩

theorem post_allFail (req : Nat → Outcome) (url : String) (s N : Nat)
    (hfail : ∀ k, attemptFails (req k) = true) :
    ∀ t, t < N →
      (Requests.requests_post req url s N t).result
          = Except.error (PyErr.maxTryReached (Requests.postRaiseMsg N))
        ∧ (Requests.requests_post req url s N t).attempts = N - t := by
  intro t
  induction t using Requests.requests_post.induct req url s N with
  | case1 x a h1 h2 =>
    have hf := hfail (x + 1)
    rw [h1] at hf
    simp [attemptFails, h2] at hf
  | case2 x a h1 h2 h3 ih =>
    intro hx
    rw [Requests.requests_post, h1]
    simp only [if_neg h2, dif_pos h3]
    have := ih (by omega)
    refine ⟨this.1, ?_⟩
    simp only [this.2]
    omega
  | case3 x a h1 h2 h3 =>
    intro hx
    rw [Requests.requests_post, h1]
    simp only [if_neg h2, dif_neg h3]
    exact ⟨trivial, by omega⟩
  | case4 x e h1 h3 ih =>
    intro hx
    rw [Requests.requests_post, h1]
    simp only [dif_pos h3]
    have := ih (by omega)
    refine ⟨this.1, ?_⟩
    simp only [this.2]
    omega
  | case5 x e h1 h3 =>
    intro hx
    rw [Requests.requests_post, h1]
    simp only [dif_neg h3]
    exact ⟨trivial, by omega⟩

theorem post_ok_status (req : Nat → Outcome) (url : String) (s N : Nat) :
    ∀ t r, (Requests.requests_post req url s N t).result = Except.ok r →
      r.status_code = 200 := by
  intro t
  induction t using Requests.requests_post.induct req url s N with
  | case1 x a h1 h2 =>
    intro r hr
    rw [Requests.requests_post, h1] at hr
    simp [h2] at hr
    rw [← hr]
    exact h2
  | case2 x a h1 h2 h3 ih =>
    intro r hr
    rw [Requests.requests_post, h1] at hr
    simp only [if_neg h2, dif_pos h3] at hr
    exact ih r hr
  | case3 x a h1 h2 h3 =>
    intro r hr
    rw [Requests.requests_post, h1] at hr
    simp [h2, h3] at hr
  | case4 x e h1 h3 ih =>
    intro r hr
    rw [Requests.requests_post, h1] at hr
    simp only [dif_pos h3] at hr
    exact ih r hr
  | case5 x e h1 h3 =>
    intro r hr
    rw [Requests.requests_post, h1] at hr
    simp [h3] at hr

theorem post_error_msg (req : Nat → Outcome) (url : String) (s N : Nat) :
    ∀ t e, (Requests.requests_post req url s N t).result = Except.error e →
      e = PyErr.maxTryReached (Requests.postRaiseMsg N) := by
  intro t
  induction t using Requests.requests_post.induct req url s N with
  | case1 x a h1 h2 =>
    intro e he
    rw [Requests.requests_post, h1] at he
    simp [h2] at he
  | case2 x a h1 h2 h3 ih =>
    intro e he
    rw [Requests.requests_post, h1] at he
    simp only [if_neg h2, dif_pos h3] at he
    exact ih e he
  | case3 x a h1 h2 h3 =>
    intro e he
    rw [Requests.requests_post, h1] at he
    simp [h2, h3] at he
    exact he.symm
  | case4 x e0 h1 h3 ih =>
    intro e he
    rw [Requests.requests_post, h1] at he
    simp only [dif_pos h3] at he
    exact ih e he
  | case5 x e0 h1 h3 =>
    intro e he
    rw [Requests.requests_post, h1] at he
    simp [h3] at he
    exact he.symm

theorem post_step_succ (req : Nat → Outcome) (url : String) (s N t : Nat)
    (r : Response) (h1 : req (t + 1) = Outcome.resp r)
    (h2 : r.status_code = 200) :
    Requests.requests_post req url s N t
      = { result := Except.ok r, attempts := 1, sleeps := 0, logs := [] } := by
  rw [Requests.requests_post.eq_def req url s N t, h1]
  simp [h2]

theorem post_step_fail_retry (req : Nat → Outcome) (url : String) (s N t : Nat)
    (hf : attemptFails (req (t + 1)) = true) (hlt : t + 1 < N) :
    (Requests.requests_post req url s N t).result
        = (Requests.requests_post req url s N (t + 1)).result
    ∧ (Requests.requests_post req url s N t).attempts
        = (Requests.requests_post req url s N (t + 1)).attempts + 1
    ∧ (Requests.requests_post req url s N t).sleeps
        = (Requests.requests_post req url s N (t + 1)).sleeps + 1 := by
  cases hq : req (t + 1) with
  | resp b =>
    have hb : ¬ b.status_code = 200 := by
      rw [hq] at hf
      simpa [attemptFails] using hf
    rw [Requests.requests_post.eq_def req url s N t, hq]
    simp [if_neg hb, dif_pos hlt]
  | exc e =>
    rw [Requests.requests_post.eq_def req url s N t, hq]
    simp [dif_pos hlt]

theorem post_step_fail_raise (req : Nat → Outcome) (url : String) (s N t : Nat)
    (hf : attemptFails (req (t + 1)) = true) (hge : ¬ t + 1 < N) :
    (Requests.requests_post req url s N t).result
        = Except.error (PyErr.maxTryReached (Requests.postRaiseMsg N))
    ∧ (Requests.requests_post req url s N t).attempts = 1
    ∧ (Requests.requests_post req url s N t).sleeps = 0 := by
  cases hq : req (t + 1) with
  | resp b =>
    have hb : ¬ b.status_code = 200 := by
      rw [hq] at hf
      simpa [attemptFails] using hf
    rw [Requests.requests_post.eq_def req url s N t, hq]
    simp [if_neg hb, dif_neg hge]
  | exc e =>
    rw [Requests.requests_post.eq_def req url s N t, hq]
    simp [dif_neg hge]

theorem post_uniform (req1 req2 : Nat → Outcome) (url : String) (s N : Nat)
    (h : ∀ k, (attemptFails (req1 k) = true ∧ attemptFails (req2 k) = true)
        ∨ req1 k = req2 k) :
    ∀ t,
      (Requests.requests_post req1 url s N t).result
          = (Requests.requests_post req2 url s N t).result
      ∧ (Requests.requests_post req1 url s N t).attempts
          = (Requests.requests_post req2 url s N t).attempts
      ∧ (Requests.requests_post req1 url s N t).sleeps
          = (Requests.requests_post req2 url s N t).sleeps := by
  intro t
  induction t using Requests.requests_post.induct req1 url s N with
  | case1 x a h1 h2 =>
    have heq : req2 (x + 1) = Outcome.resp a := by
      rcases h (x + 1) with ⟨hf1, _⟩ | heq
      · rw [h1] at hf1
        simp [attemptFails, h2] at hf1
      · rw [← heq]
        exact h1
    rw [post_step_succ req1 url s N x a h1 h2, post_step_succ req2 url s N x a heq h2]
    exact ⟨rfl, rfl, rfl⟩
  | case2 x a h1 h2 h3 ih =>
    have hf1 : attemptFails (req1 (x + 1)) = true := by
      rw [h1]
      simp [attemptFails, h2]
    have hf2 : attemptFails (req2 (x + 1)) = true := by
      rcases h (x + 1) with ⟨_, hf2⟩ | heq
      · exact hf2
      · rw [← heq]
        exact hf1
    have s1 := post_step_fail_retry req1 url s N x hf1 h3
    have s2 := post_step_fail_retry req2 url s N x hf2 h3
    exact ⟨by rw [s1.1, s2.1, ih.1], by rw [s1.2.1, s2.2.1, ih.2.1],
      by rw [s1.2.2, s2.2.2, ih.2.2]⟩
  | case3 x a h1 h2 h3 =>
    have hf1 : attemptFails (req1 (x + 1)) = true := by
      rw [h1]
      simp [attemptFails, h2]
    have hf2 : attemptFails (req2 (x + 1)) = true := by
      rcases h (x + 1) with ⟨_, hf2⟩ | heq
      · exact hf2
      · rw [← heq]
        exact hf1
    have s1 := post_step_fail_raise req1 url s N x hf1 h3
    have s2 := post_step_fail_raise req2 url s N x hf2 h3
    exact ⟨by rw [s1.1, s2.1], by rw [s1.2.1, s2.2.1], by rw [s1.2.2, s2.2.2]⟩
  | case4 x e h1 h3 ih =>
    have hf1 : attemptFails (req1 (x + 1)) = true := by
      rw [h1]
      simp [attemptFails]
    have hf2 : attemptFails (req2 (x + 1)) = true := by
      rcases h (x + 1) with ⟨_, hf2⟩ | heq
      · exact hf2
      · rw [← heq]
        exact hf1
    have s1 := post_step_fail_retry req1 url s N x hf1 h3
    have s2 := post_step_fail_retry req2 url s N x hf2 h3
    exact ⟨by rw [s1.1, s2.1, ih.1], by rw [s1.2.1, s2.2.1, ih.2.1],
      by rw [s1.2.2, s2.2.2, ih.2.2]⟩
  | case5 x e h1 h3 =>
    have hf1 : attemptFails (req1 (x + 1)) = true := by
      rw [h1]
      simp [attemptFails]
    have hf2 : attemptFails (req2 (x + 1)) = true := by
      rcases h (x + 1) with ⟨_, hf2⟩ | heq
      · exact hf2
      · rw [← heq]
        exact hf1
    have s1 := post_step_fail_raise req1 url s N x hf1 h3
    have s2 := post_step_fail_raise req2 url s N x hf2 h3
    exact ⟨by rw [s1.1, s2.1], by rw [s1.2.1, s2.2.1], by rw [s1.2.2, s2.2.2]⟩

theorem legacy_error_msg (req : Nat → Outcome) (url : String) :
    ∀ t s N e, (Legacy.requests_post req url t s N).result = Except.error e →
      e = PyErr.maxTryReached (Legacy.legacyRaiseMsg N url) := by
  intro t s N
  induction t, s, N using Legacy.requests_post.induct req url with
  | case1 x s N a h1 h2 =>
    intro e he
    rw [Legacy.requests_post, h1] at he
    simp [h2] at he
  | case2 x s N a h1 h2 h3 ih =>
    intro e he
    rw [Legacy.requests_post, h1] at he
    simp only [if_neg h2, dif_pos h3] at he
    exact ih e he
  | case3 x s N a h1 h2 h3 =>
    intro e he
    rw [Legacy.requests_post, h1] at he
    simp [h2, h3] at he
    exact he.symm
  | case4 x s N e0 h1 h3 ih =>
    intro e he
    rw [Legacy.requests_post, h1] at he
    simp only [dif_pos h3] at he
    exact ih e he
  | case5 x s N e0 h1 h3 =>
    intro e he
    rw [Legacy.requests_post, h1] at he
    simp [h3] at he
    exact he.symm

theorem get_logs_count (req : Nat → Outcome) (url : String) (s N : Nat) :
    ∀ t, (∀ r, (Requests.requests_get req url s N t).result = Except.ok r →
        (Requests.requests_get req url s N t).logs.length + 1
          = (Requests.requests_get req url s N t).attempts)
      ∧ (∀ e, (Requests.requests_get req url s N t).result = Except.error e →
        (Requests.requests_get req url s N t).logs.length
          = (Requests.requests_get req url s N t).attempts) := by
  intro t
  induction t using Requests.requests_get.induct req url s N with
  | case1 x a h1 h2 =>
    rw [get_step_succ req url s N x a h1 h2]
    exact ⟨fun r _ => rfl, fun e he => by simp at he⟩
  | case2 x a h1 h2 h3 ih =>
    rw [Requests.requests_get, h1]
    simp only [if_neg h2, dif_pos h3]
    exact ⟨fun r hr => by have := ih.1 r hr; simpa using this,
      fun e he => by have := ih.2 e he; simpa using this⟩
  | case3 x a h1 h2 h3 =>
    rw [Requests.requests_get, h1]
    simp only [if_neg h2, dif_neg h3]
    exact ⟨fun r hr => by simp at hr, fun e he => rfl⟩
  | case4 x e0 h1 h3 ih =>
    rw [Requests.requests_get, h1]
    simp only [dif_pos h3]
    exact ⟨fun r hr => by have := ih.1 r hr; simpa using this,
      fun e he => by have := ih.2 e he; simpa using this⟩
  | case5 x e0 h1 h3 =>
    rw [Requests.requests_get, h1]
    simp only [dif_neg h3]
    exact ⟨fun r hr => by simp at hr, fun e he => rfl⟩

/-- C1: for every `max_try = N ≥ 1`, a call of `requests_get` (resp.
`requests_post`) seeded with `trials = 0` against a requester whose every
attempt fails (transport exception or non-200 status) makes exactly `N` HTTP
attempts and raises `MaxTryReached`. -/
theorem claim_C1_always_fail_exhausts (req : Nat → Outcome) (url : String)
    (s N : Nat) (hN : 1 ≤ N) (hfail : ∀ k, attemptFails (req k) = true) :
    (Requests.requests_get req url s N 0).attempts = N
    ∧ (Requests.requests_get req url s N 0).result
        = Except.error (PyErr.maxTryReached (Requests.getRaiseMsg N))
    ∧ (Requests.requests_post req url s N 0).attempts = N
    ∧ (Requests.requests_post req url s N 0).result
        = Except.error (PyErr.maxTryReached (Requests.postRaiseMsg N)) := by
  have hg := get_allFail req url s N hfail 0 (by omega)
  have hp := post_allFail req url s N hfail 0 (by omega)
  refine ⟨by omega, hg.1, by omega, hp.1⟩

theorem claim_C1_witness :
    (1 ≤ 2 ∧ attemptFails (Outcome.exc "boom") = true)
    ∧ (Requests.requests_get (fun _ => Outcome.exc "boom") "http://x.example" 7 2 0).attempts = 2
    ∧ (Requests.requests_get (fun _ => Outcome.exc "boom") "http://x.example" 7 2 0).result
        = Except.error (PyErr.maxTryReached (Requests.getRaiseMsg 2))
    ∧ (Requests.requests_post (fun _ => Outcome.exc "boom") "http://x.example" 7 2 0).attempts = 2
    ∧ (Requests.requests_post (fun _ => Outcome.exc "boom") "http://x.example" 7 2 0).result
        = Except.error (PyErr.maxTryReached (Requests.postRaiseMsg 2)) :=
  ⟨⟨by decide, rfl⟩,
    claim_C1_always_fail_exhausts (fun _ => Outcome.exc "boom") "http://x.example" 7 2
      (by decide) (fun _ => rfl)⟩

/-- C2: for every `max_try = N` and `k ≤ N`, if the `k`-th underlying HTTP
attempt is the first to return status 200, then `requests_get` with
`trials = 0` makes exactly `k` attempts and returns that `k`-th response; no
further attempts occur after it. -/
theorem claim_C2_kth_success (req : Nat → Outcome) (url : String) (s N k : Nat)
    (r : Response) (hk1 : 1 ≤ k) (hkN : k ≤ N)
    (hfails : ∀ j, 1 ≤ j → j < k → attemptFails (req j) = true)
    (hreqk : req k = Outcome.resp r) (h200 : r.status_code = 200) :
    (Requests.requests_get req url s N 0).result = Except.ok r
    ∧ (Requests.requests_get req url s N 0).attempts = k := by
  have := get_firstSuccess req url s N 0 k r (by omega) hkN
    (fun j hj1 hj2 => hfails j (by omega) hj2) hreqk h200
  exact ⟨this.1, by omega⟩

theorem claim_C2_witness :
    (1 ≤ 2 ∧ 2 ≤ 3
      ∧ (∀ j, 1 ≤ j → j < 2 →
          attemptFails ((fun j => if j = 2 then Outcome.resp ⟨200, "ok"⟩ else Outcome.exc "boom") j) = true)
      ∧ (fun j => if j = 2 then Outcome.resp ⟨200, "ok"⟩ else Outcome.exc "boom") 2
          = Outcome.resp ⟨200, "ok"⟩
      ∧ Response.status_code ⟨200, "ok"⟩ = 200)
    ∧ (Requests.requests_get
          (fun j => if j = 2 then Outcome.resp ⟨200, "ok"⟩ else Outcome.exc "boom")
          "http://x.example" 7 3 0).result = Except.ok ⟨200, "ok"⟩
    ∧ (Requests.requests_get
          (fun j => if j = 2 then Outcome.resp ⟨200, "ok"⟩ else Outcome.exc "boom")
          "http://x.example" 7 3 0).attempts = 2 :=
  ⟨⟨by decide, by decide,
      fun j hj1 hj2 => by
        have hj : j = 1 := by omega
        subst hj
        decide,
      by decide, by decide⟩,
    claim_C2_kth_success
      (fun j => if j = 2 then Outcome.resp ⟨200, "ok"⟩ else Outcome.exc "boom")
      "http://x.example" 7 3 2 ⟨200, "ok"⟩ (by decide) (by decide)
      (fun j hj1 hj2 => by
        have hj : j = 1 := by omega
        subst hj
        decide)
      (by decide) (by decide)⟩

/-- C3: in every call of `requests_get` with `trials = 0`, the number of
`time.sleep` invocations equals the number of HTTP attempts made minus one:
no sleep after a final success, and no sleep after the attempt that exhausts
the budget. -/
theorem claim_C3_sleep_count (req : Nat → Outcome) (url : String) (s N : Nat) :
    (Requests.requests_get req url s N 0).sleeps
        = (Requests.requests_get req url s N 0).attempts - 1
    ∧ 1 ≤ (Requests.requests_get req url s N 0).attempts := by
  have := get_sleeps req url s N 0
  omega

/-- C4: an attempt is judged successful exactly when its status code equals
200, in both helpers (an `ok` result of `requests_get` or `requests_post`
always carries status 200, and a 200 attempt makes either helper return that
response as a success), and any two requesters that differ only on failing
attempts (exception versus bad status code, in any mix) produce the same
result, the same attempt count and the same sleep count in both
`requests_get` and `requests_post`. -/
theorem claim_C4_success_iff_200_and_uniform_failures
    (req1 req2 : Nat → Outcome) (url : String) (s N t : Nat)
    (h : ∀ k, (attemptFails (req1 k) = true ∧ attemptFails (req2 k) = true)
        ∨ req1 k = req2 k) :
    ((Requests.requests_get req1 url s N t).result
          = (Requests.requests_get req2 url s N t).result
      ∧ (Requests.requests_get req1 url s N t).attempts
          = (Requests.requests_get req2 url s N t).attempts
      ∧ (Requests.requests_get req1 url s N t).sleeps
          = (Requests.requests_get req2 url s N t).sleeps)
    ∧ ((Requests.requests_post req1 url s N t).result
          = (Requests.requests_post req2 url s N t).result
      ∧ (Requests.requests_post req1 url s N t).attempts
          = (Requests.requests_post req2 url s N t).attempts
      ∧ (Requests.requests_post req1 url s N t).sleeps
          = (Requests.requests_post req2 url s N t).sleeps)
    ∧ (∀ r, (Requests.requests_get req1 url s N t).result = Except.ok r →
        r.status_code = 200)
    ∧ (∀ r, (Requests.requests_post req1 url s N t).result = Except.ok r →
        r.status_code = 200)
    ∧ (∀ r, req1 (t + 1) = Outcome.resp r → r.status_code = 200 →
        (Requests.requests_get req1 url s N t).result = Except.ok r)
    ∧ (∀ r, req1 (t + 1) = Outcome.resp r → r.status_code = 200 →
        (Requests.requests_post req1 url s N t).result = Except.ok r) := by
  refine ⟨get_uniform req1 req2 url s N h t, post_uniform req1 req2 url s N h t,
    get_ok_status req1 url s N t, post_ok_status req1 url s N t, ?_, ?_⟩
  · intro r h1 h2
    rw [get_step_succ req1 url s N t r h1 h2]
  · intro r h1 h2
    rw [post_step_succ req1 url s N t r h1 h2]

theorem claim_C4_witness :
    (∀ k : Nat, (attemptFails ((fun _ : Nat => Outcome.exc "boom") k) = true
        ∧ attemptFails ((fun _ : Nat => Outcome.resp ⟨503, "oops"⟩) k) = true)
      ∨ (fun _ : Nat => Outcome.exc "boom") k = (fun _ : Nat => Outcome.resp ⟨503, "oops"⟩) k)
    ∧ (Requests.requests_get (fun _ : Nat => Outcome.exc "boom") "http://x.example" 7 3 0).result
        = (Requests.requests_get (fun _ : Nat => Outcome.resp ⟨503, "oops"⟩) "http://x.example" 7 3 0).result := by
  have hc : ∀ k : Nat, (attemptFails ((fun _ : Nat => Outcome.exc "boom") k) = true
        ∧ attemptFails ((fun _ : Nat => Outcome.resp (⟨503, "oops"⟩ : Response)) k) = true)
      ∨ (fun _ : Nat => Outcome.exc "boom") k = (fun _ : Nat => Outcome.resp (⟨503, "oops"⟩ : Response)) k :=
    fun _ => Or.inl ⟨rfl, rfl⟩
  exact ⟨hc,
    (claim_C4_success_iff_200_and_uniform_failures (fun _ : Nat => Outcome.exc "boom")
      (fun _ : Nat => Outcome.resp ⟨503, "oops"⟩) "http://x.example" 7 3 0 hc).1.1⟩

/-- C6: the only error a `requests_get` call can ever propagate is
`MaxTryReached`: every run ends either in a status-200 response or in that
single error, and every failed attempt is absorbed into exactly one
diagnostic log record (logs = attempts on exhaustion, attempts − 1 on
success). -/
theorem claim_C6_only_MaxTryReached_escapes (req : Nat → Outcome) (url : String)
    (s N t : Nat) :
    ((∃ r, (Requests.requests_get req url s N t).result = Except.ok r
        ∧ r.status_code = 200)
      ∨ (Requests.requests_get req url s N t).result
          = Except.error (PyErr.maxTryReached (Requests.getRaiseMsg N)))
    ∧ (∀ r, (Requests.requests_get req url s N t).result = Except.ok r →
        (Requests.requests_get req url s N t).logs.length + 1
          = (Requests.requests_get req url s N t).attempts)
    ∧ (∀ e, (Requests.requests_get req url s N t).result = Except.error e →
        (Requests.requests_get req url s N t).logs.length
          = (Requests.requests_get req url s N t).attempts) := by
  refine ⟨?_, (get_logs_count req url s N t).1, (get_logs_count req url s N t).2⟩
  cases hres : (Requests.requests_get req url s N t).result with
  | ok r => exact Or.inl ⟨r, rfl, get_ok_status req url s N t r hres⟩
  | error e =>
    have := get_error_msg req url s N t e hres
    rw [← this]
    exact Or.inr rfl

theorem claim_C6_witness :
    ((Requests.requests_get (fun _ : Nat => Outcome.exc "boom") "http://x.example" 0 1 0).result
        = Except.error (PyErr.maxTryReached (Requests.getRaiseMsg 1)))
    ∧ (Requests.requests_get (fun _ : Nat => Outcome.exc "boom") "http://x.example" 0 1 0).logs.length
        = (Requests.requests_get (fun _ : Nat => Outcome.exc "boom") "http://x.example" 0 1 0).attempts :=
  ⟨by simp [Requests.requests_get],
    (claim_C6_only_MaxTryReached_escapes (fun _ : Nat => Outcome.exc "boom")
        "http://x.example" 0 1 0).2.2
      (PyErr.maxTryReached (Requests.getRaiseMsg 1))
      (by simp [Requests.requests_get])⟩

/-- C7: seeding honoured — for every `N ≥ 1`, calling `requests_get` with
`trials = N - 1` and `max_try = N` against an always-failing requester makes
exactly one HTTP attempt and then raises `MaxTryReached`. -/
theorem claim_C7_seeded_counter (req : Nat → Outcome) (url : String) (s N : Nat)
    (hN : 1 ≤ N) (hfail : ∀ k, attemptFails (req k) = true) :
    (Requests.requests_get req url s N (N - 1)).attempts = 1
    ∧ (Requests.requests_get req url s N (N - 1)).result
        = Except.error (PyErr.maxTryReached (Requests.getRaiseMsg N)) := by
  have := get_allFail req url s N hfail (N - 1) (by omega)
  exact ⟨by omega, this.1⟩

theorem claim_C7_witness :
    (1 ≤ 3 ∧ attemptFails (Outcome.resp ⟨500, "err"⟩) = true)
    ∧ (Requests.requests_get (fun _ : Nat => Outcome.resp ⟨500, "err"⟩) "http://x.example" 7 3 2).attempts = 1
    ∧ (Requests.requests_get (fun _ : Nat => Outcome.resp ⟨500, "err"⟩) "http://x.example" 7 3 2).result
        = Except.error (PyErr.maxTryReached (Requests.getRaiseMsg 3)) :=
  ⟨⟨by decide, by decide⟩,
    claim_C7_seeded_counter (fun _ : Nat => Outcome.resp ⟨500, "err"⟩) "http://x.example" 7 3
      (by decide) (fun _ => rfl)⟩

/-- C9: for every initial `trials` value, including `trials ≥ max_try`,
`requests_get` always makes at least one HTTP attempt, and if that first
attempt returns status 200 its response is returned as a success: the budget
check `trials < max_try` happens only after a failed attempt. -/
theorem claim_C9_first_attempt_always_made (req : Nat → Outcome) (url : String)
    (s N t : Nat) :
    1 ≤ (Requests.requests_get req url s N t).attempts
    ∧ (∀ r, req (t + 1) = Outcome.resp r → r.status_code = 200 →
        (Requests.requests_get req url s N t).result = Except.ok r
        ∧ (Requests.requests_get req url s N t).attempts = 1) := by
  constructor
  · have := get_sleeps req url s N t
    omega
  · intro r h1 h2
    rw [get_step_succ req url s N t r h1 h2]
    exact ⟨rfl, rfl⟩

theorem claim_C9_witness :
    ((fun _ : Nat => Outcome.resp (⟨200, "ok"⟩ : Response)) (5 + 1) = Outcome.resp ⟨200, "ok"⟩
      ∧ Response.status_code ⟨200, "ok"⟩ = 200)
    ∧ (Requests.requests_get (fun _ : Nat => Outcome.resp ⟨200, "ok"⟩) "http://x.example" 7 3 5).result
        = Except.ok ⟨200, "ok"⟩
    ∧ (Requests.requests_get (fun _ : Nat => Outcome.resp ⟨200, "ok"⟩) "http://x.example" 7 3 5).attempts = 1 :=
  ⟨⟨by decide, by decide⟩,
    (claim_C9_first_attempt_always_made (fun _ : Nat => Outcome.resp ⟨200, "ok"⟩)
      "http://x.example" 7 3 5).2 ⟨200, "ok"⟩ (by decide) (by decide)⟩

/-- C5, counterexample: the `MaxTryReached` raised by `requests_get` is
identical for two different URLs and its message is a URL-free literal, so
the raised error does not carry the request URL. -/
theorem claim_C5_counterexample :
    (Requests.requests_get (fun _ : Nat => Outcome.exc "boom") "http://a.example" 0 1 0).result
        = (Requests.requests_get (fun _ : Nat => Outcome.exc "boom") "http://b.example" 0 1 0).result
    ∧ (Requests.requests_get (fun _ : Nat => Outcome.exc "boom") "http://a.example" 0 1 0).result
        = Except.error (PyErr.maxTryReached (Requests.getRaiseMsg 1))
    ∧ Requests.getRaiseMsg 1 = "Max Try of 1 has been reached for requests GET."
    ∧ "http://a.example" ≠ "http://b.example" := by
  refine ⟨?_, ?_, by decide, by decide⟩ <;>
    simp [Requests.requests_get]

/-- C5, amended: whenever `requests_get` or `requests_post` of `requests.py`
raises `MaxTryReached`, the error carries the configured `max_try` value but
not the request URL (the URL appears only in the per-attempt log records);
only the legacy `scrap_utils.py` `requests_post` carries both `max_try` and
the URL. -/
theorem claim_C5_error_payload (req : Nat → Outcome) (url : String) (s N t : Nat) :
    (∀ e, (Requests.requests_get req url s N t).result = Except.error e →
        e = PyErr.maxTryReached (Requests.getRaiseMsg N))
    ∧ (∀ e, (Requests.requests_post req url s N t).result = Except.error e →
        e = PyErr.maxTryReached (Requests.postRaiseMsg N))
    ∧ (∀ e, (Legacy.requests_post req url t s N).result = Except.error e →
        e = PyErr.maxTryReached (Legacy.legacyRaiseMsg N url))
    ∧ Requests.getRaiseMsg N
        = "Max Try of " ++ toString N ++ " has been reached for requests GET."
    ∧ Requests.postRaiseMsg N
        = "Max Try of " ++ toString N ++ " has been reached for requests POST."
    ∧ Legacy.legacyRaiseMsg N url
        = "Max Trial of " ++ toString N ++ " has been reached for requests post. Url: " ++ url := by
  exact ⟨get_error_msg req url s N t, post_error_msg req url s N t,
    legacy_error_msg req url t s N, rfl, rfl, rfl⟩

theorem claim_C5_witness :
    ((Requests.requests_get (fun _ : Nat => Outcome.exc "boom") "http://x.example" 0 1 0).result
        = Except.error (PyErr.maxTryReached (Requests.getRaiseMsg 1)))
    ∧ PyErr.maxTryReached (Requests.getRaiseMsg 1)
        = PyErr.maxTryReached (Requests.getRaiseMsg 1) :=
  ⟨by simp [Requests.requests_get],
    (claim_C5_error_payload (fun _ : Nat => Outcome.exc "boom") "http://x.example" 0 1 0).1
      (PyErr.maxTryReached (Requests.getRaiseMsg 1))
      (by simp [Requests.requests_get])⟩

/-- C8, counterexample: with `header=False`, `to_csv` on the two-row dataset
`[[a], [b]]` writes `[[b]]` — the first row is dropped, not the last — and
`read_csv` on a two-row file returns only the second row rather than keeping
all rows. -/
theorem claim_C8_counterexample :
    ¬ ((File.to_csv [["a"], ["b"]] (some []) false File.Mode.w).file
        = [["a"], ["b"]].dropLast)
    ∧ (File.to_csv [["a"], ["b"]] (some []) false File.Mode.w).file = [["b"]]
    ∧ ¬ (File.read_csv [["x"], ["y"]] false = [["x"], ["y"]])
    ∧ File.read_csv [["x"], ["y"]] false = [["y"]] := by
  decide

/-- C8, amended: `to_csv` with `header=False` silently drops the FIRST row of
the dataset (it writes `dataset[1:]`), and `read_csv` with `header=False`
likewise drops the FIRST row of the file (it returns `rows[1:]`) rather than
keeping all rows. -/
theorem claim_C8_drops_first_row (dataset : List (List String))
    (existing : Option (List (List String))) (mode : File.Mode)
    (fileRows : List (List String)) :
    (File.to_csv dataset existing false mode).file
        = File.openFileBase mode existing ++ dataset.drop 1
    ∧ File.read_csv fileRows false = fileRows.drop 1 := by
  constructor <;> simp [File.to_csv, File.read_csv]

/-- C10: `to_csv` with `dictionary=True` and an empty `fieldnames` writes no
rows and raises no error — it only emits the warning — yet the file is still
opened in the given mode: with mode `'w'` the existing content is truncated,
while with the default mode `'a'` the content is unchanged apart from
creation. -/
theorem claim_C10_empty_fieldnames (dataset : List (List (String × String)))
    (existing : Option (List (List String))) (header : Bool) :
    ((File.to_csv_dictionary dataset existing [] header File.Mode.w).file = []
      ∧ (File.to_csv_dictionary dataset existing [] header File.Mode.w).warnings
          = [File.fieldnamesWarning])
    ∧ ((File.to_csv_dictionary dataset existing [] header File.Mode.a).file
          = existing.getD []
      ∧ (File.to_csv_dictionary dataset existing [] header File.Mode.a).warnings
          = [File.fieldnamesWarning]) := by
  simp [File.to_csv_dictionary, File.openFileBase]

